import Mathlib

/-!
Verification of the build-orchestration core of `build.py` and
`scripts/build_libcxx.py` (the "my-clang" toolchain build scripts).

The Python code is shallowly embedded: pure computations (flag-list
synthesis, path construction) become Lean functions over `String` and
`List String`; the effectful orchestration (subprocess invocations,
directory wipes, downloads) becomes an explicit event trace over an
orchestration state, with subprocess exit codes supplied by an oracle
function `Nat → Nat` (the exit code of the i-th subprocess started).
The network fetch loop of `download_url` is embedded with an oracle
`Nat → AttemptEvent` giving the outcome of each successive HTTP attempt,
and the in-memory output file is a `List Nat` of bytes.
-/

/-! ## Archive Fetcher: `download_url` (build.py lines 130-192) -/

/-- External stateful gzip decoder (`zlib.decompressobj` in the source);
the decoder is outside the repository, so it is kept as an abstract
state machine parameter of the model. -/
structure GzipModel (σ : Type) where
  init : σ
  step : σ → List Nat → σ × List Nat
  flush : σ → List Nat

/-- One HTTP response as observed by `download_url`: the declared
`Content-Length` header (if any), whether `Content-Encoding: gzip` was
declared, and the successive chunks produced by `response.read`. -/
structure Response where
  contentLength : Option Nat
  gzipped : Bool
  chunks : List (List Nat)
deriving DecidableEq

/-- Outcome of one fetch attempt, as driven by the network:
either a complete response, a connection-level failure after some bytes
were already written to the output file, or an `HTTPError` with a status
code raised by `urlopen` (before anything is written). -/
inductive AttemptEvent
  | resp (r : Response)
  | connErrorMid (written : List Nat)
  | httpError (code : Nat)
deriving DecidableEq

/-- The errors `download_url` can see in one attempt: a connection-level
error, an HTTP error with its code, or the internally raised
`URLError("only got ... of ... bytes")` on a content-length mismatch. -/
inductive AttErr
  | conn
  | http (code : Nat)
  | sizeMismatch (got expected : Nat)
deriving DecidableEq

/-- Total number of body bytes received in a response (the source's
`bytes_done`: raw transfer bytes, counted before any gzip decoding). -/
def responseBytes (r : Response) : Nat :=
  (r.chunks.map List.length).sum

/-- One attempt of the `while True` body of `download_url` (lines 139-176):
write the chunks (decoding inline when the transfer is gzipped), then
fail with a size-mismatch error when a declared content length differs
from the bytes received, flushing the decoder only on success. -/
def runAttempt {σ : Type} (gz : GzipModel σ) (ev : AttemptEvent)
    (file : List Nat) : List Nat × Option AttErr :=
  match ev with
  | AttemptEvent.httpError c => (file, some (AttErr.http c))
  | AttemptEvent.connErrorMid w => (file ++ w, some AttErr.conn)
  | AttemptEvent.resp r =>
    if r.gzipped then
      let sf := r.chunks.foldl
        (fun (acc : σ × List Nat) c =>
          let so := gz.step acc.1 c
          (so.1, acc.2 ++ so.2)) (gz.init, file)
      match r.contentLength with
      | some L =>
        if responseBytes r = L then (sf.2 ++ gz.flush sf.1, none)
        else (sf.2, some (AttErr.sizeMismatch (responseBytes r) L))
      | none => (sf.2 ++ gz.flush sf.1, none)
    else
      let f := r.chunks.foldl (fun acc c => acc ++ c) file
      match r.contentLength with
      | some L =>
        if responseBytes r = L then (f, none)
        else (f, some (AttErr.sizeMismatch (responseBytes r) L))
      | none => (f, none)

/-- Observable trace of a whole `download_url` run: how many attempts
were made, the backoff sleeps performed (in seconds), the output-file
content at the start of each attempt, and the final outcome (the
completed file, or the error that was re-raised). -/
structure DlTrace where
  attempts : Nat
  sleeps : List Nat
  startFiles : List (List Nat)
  result : Except AttErr (List Nat)

/-- The retry loop of `download_url` (lines 137-192), with the attempt
outcomes supplied by `oracle` (attempt index ↦ outcome).  On a retryable
error with retries remaining, the output file is truncated
(`seek(0); truncate()`), the current backoff delay is slept and doubled,
and the retry budget decremented.  A 404 `HTTPError`, or an exhausted
retry budget, re-raises immediately. -/
def downloadLoop {σ : Type} (gz : GzipModel σ) (oracle : Nat → AttemptEvent) :
    Nat → Nat → Nat → List Nat → DlTrace
  | 0, i, _wait, file =>
    match runAttempt gz (oracle i) file with
    | (f, none) => ⟨1, [], [file], Except.ok f⟩
    | (_, some e) => ⟨1, [], [file], Except.error e⟩
  | n + 1, i, wait, file =>
    match runAttempt gz (oracle i) file with
    | (f, none) => ⟨1, [], [file], Except.ok f⟩
    | (_, some e) =>
      if e = AttErr.http 404 then ⟨1, [], [file], Except.error e⟩
      else
        let rest := downloadLoop gz oracle n (i + 1) (wait * 2) []
        ⟨rest.attempts + 1, wait :: rest.sleeps, file :: rest.startFiles,
          rest.result⟩

/-- `download_url` proper: `num_retries = 3`, `retry_wait_s = 5`, output
file initially empty (a fresh temporary file). -/
def download_url {σ : Type} (gz : GzipModel σ) (oracle : Nat → AttemptEvent) :
    DlTrace :=
  downloadLoop gz oracle 3 0 5 []

/-- A trivial decoder instance (identity, empty flush), used to
instantiate the abstract decoder in concrete evaluations. -/
def gzId : GzipModel Unit :=
  ⟨(), fun s c => (s, c), fun _ => []⟩

/-! ## String primitives

Python's `str.startswith` / `str.endswith` / lexicographic string
comparison, implemented structurally over the character list so that
concrete evaluations reduce in the kernel. -/

/-- `startsWithL s p`: the char list `p` is an initial segment of `s`. -/
def startsWithL : List Char → List Char → Bool
  | _, [] => true
  | [], _ :: _ => false
  | a :: as, b :: bs => a == b && startsWithL as bs

/-- Python `s.startswith(p)`. -/
def strStartsWith (s p : String) : Bool := startsWithL s.data p.data

/-- Python `s.endswith(p)`. -/
def strEndsWith (s p : String) : Bool :=
  startsWithL s.data.reverse p.data.reverse

/-- Lexicographic (code-point) comparison, Python `s < t`. -/
def ltL : List Char → List Char → Bool
  | _, [] => false
  | [], _ :: _ => true
  | a :: as, b :: bs => if a < b then true else if b < a then false else ltL as bs

def strLt (s t : String) : Bool := ltL s.data t.data

/-! ## Archive Fetcher: extraction (`download_and_unpack`, lines 195-217) -/

/-- The extraction half of `download_and_unpack`: the network download is
modeled by the `archive` argument, the list of member paths of the
fetched archive.  Zip archives (URL ending `.zip`, or `is_known_zip`)
are extracted whole, and the source `assert path_prefixes is None` makes
a supplied prefix filter fail fast; tar archives extract the members
whose name starts with one of the prefixes, or all members when no
filter is supplied. -/
def download_and_unpack (url : String) (archive : List String)
    (path_prefixes : Option (List String)) (is_known_zip : Bool) :
    Except String (List String) :=
  if strEndsWith url ".zip" || is_known_zip then
    match path_prefixes with
    | some _ => Except.error "AssertionError: path_prefixes is None"
    | none => Except.ok archive
  else
    match path_prefixes with
    | none => Except.ok archive
    | some ps =>
      Except.ok (archive.filter (fun m => ps.any (fun p => strStartsWith m p)))

/-! ## Data model: platform identity and the BuildRequest (CLI arguments) -/

/-- `sys.platform` as the scripts branch on it. -/
inductive Platform
  | linux
  | win32
  | darwin
deriving DecidableEq

/-- The parsed command-line arguments of `build.py` (the BuildRequest):
`--bootstrap`, `--install-dir`, `--thinlto`, `--disable-asserts`,
`--pic`, `--without-zstd` (stored inverted as `with_zstd`),
`--run-tests`.  (`--build-dir` is accepted by the parser but never read
by `main`, so it is omitted.) -/
structure Args where
  bootstrap : Bool
  install_dir : Option String
  thinlto : Bool
  disable_asserts : Bool
  pic : Bool
  with_zstd : Bool
  run_tests : Bool
deriving DecidableEq

/-- `argparse` defaults: all switches off, zstd enabled. -/
def defaultArgs : Args :=
  ⟨false, none, false, false, false, true, false⟩

/-! ## Workspace paths (build.py lines 24-58)

`os.path.normpath` only normalizes separators and `..` segments; it is
elided here (paths are joined with a literal `/`), which keeps every
distinct source path distinct and is irrelevant to the claims, all of
which compare paths for identity. -/

def norm (p : String) : String := p

def join (b p : String) : String := norm (b ++ "/" ++ p)

/-- `norm(dirname(__file__))` for `src/build.py`. -/
def BUILD_DIR : String := norm "src"

def CDS_URL : String :=
  "https://commondatastorage.googleapis.com/chromium-browser-clang"

def LLVM_PROJECT_DIR : String := join BUILD_DIR "../llvm-project"

def LLVM_BOOTSTRAP_DIR : String := join BUILD_DIR "out/llvm-bootstrap"

def LLVM_BOOTSTRAP_INSTALL_DIR : String :=
  join BUILD_DIR "out/llvm-bootstrap-install"

def LLVM_BUILD_DIR : String := join BUILD_DIR "out/llvm-build"

def LLVM_INSTALL_DIR : String := join BUILD_DIR "out/llvm-install"

def LLVM_BUILD_TOOLS_DIR : String := join BUILD_DIR "out/llvm-build-tools"

/-! ## Dependency artifacts: paths and the flags they contribute
(build.py `build_zlib` / `build_libxml2` / `build_zstd`) -/

def zlib_dir : String := join LLVM_BUILD_TOOLS_DIR "zlib-1.2.11"

def libxml_src_dir : String := join LLVM_BUILD_TOOLS_DIR "libxml2-v2.9.12"

def libxml_build_dir : String := join libxml_src_dir "build"

def libxml_install_dir : String := join libxml_build_dir "install"

def libxml2_lib (plat : Platform) : String :=
  if plat = Platform.win32 then join (join libxml_install_dir "lib") "libxml2s.lib"
  else join (join libxml_install_dir "lib") "libxml2.a"

/-- The `extra_cmake_flags` returned by `build_libxml2` (lines 347-356). -/
def libxml_cmake_args (plat : Platform) : List String :=
  [ "-DLLVM_ENABLE_LIBXML2=FORCE_ON",
    "-DLIBXML2_INCLUDE_DIR=\"" ++ join libxml_install_dir "include/libxml2" ++ "\"",
    "-DLIBXML2_LIBRARIES=\"" ++ libxml2_lib plat ++ "\"",
    "-DLIBXML2_LIBRARY=\"" ++ libxml2_lib plat ++ "\"",
    "-DCLANG_ENABLE_LIBXML2=NO" ]

/-- The `extra_cflags` returned by `build_libxml2` (line 357). -/
def libxml_cflags : List String := ["-DLIBXML_STATIC"]

def zstd_src_dir : String := join LLVM_BUILD_TOOLS_DIR "zstd-1.5.5"

def zstd_build_dir : String := join zstd_src_dir "cmake_build"

def zstd_install_dir : String := join zstd_build_dir "install"

def zstd_lib (plat : Platform) : String :=
  if plat = Platform.win32 then join (join zstd_install_dir "lib") "zstd_static.lib"
  else join (join zstd_install_dir "lib") "libzstd.a"

/-- The `extra_cmake_flags` returned by `build_zstd` (lines 408-413);
its `extra_cflags` is empty. -/
def zstd_cmake_args (plat : Platform) : List String :=
  [ "-DLLVM_ENABLE_ZSTD=ON",
    "-DLLVM_USE_STATIC_ZSTD=ON",
    "-Dzstd_INCLUDE_DIR=\"" ++ join zstd_install_dir "include" ++ "\"",
    "-Dzstd_LIBRARY=\"" ++ zstd_lib plat ++ "\"" ]

/-! ## Configuration Synthesizer (build.py `main`, lines 598-858) -/

def joinSp (l : List String) : String := String.intercalate " " l

/-- `pic_default = sys.platform == "win32"`; `pic_mode` (lines 601-602). -/
def pic_mode (args : Args) (plat : Platform) : String :=
  if args.pic || plat = Platform.win32 then "ON" else "OFF"

/-- `base_cmake_args` as first assigned (lines 604-635). -/
def base_cmake_args_initial (args : Args) (plat : Platform) : List String :=
  [ "-GNinja",
    "-DCMAKE_BUILD_TYPE=Release",
    "-DLLVM_ENABLE_ASSERTIONS=" ++ (if args.disable_asserts then "OFF" else "ON"),
    "-DLLVM_ENABLE_PROJECTS=\"clang;lld;clang-tools-extra\"",
    "-DLLVM_ENABLE_RUNTIMES=compiler-rt",
    "-DLLVM_TARGETS_TO_BUILD=\"AArch64;ARM;LoongArch;Mips;PowerPC;RISCV;SystemZ;WebAssembly;X86\"",
    "-DLLVM_ENABLE_PIC=" ++ pic_mode args plat,
    "-DLLVM_ENABLE_Z3_SOLVER=OFF",
    "-DCLANG_ENABLE_STATIC_ANALYZER=OFF",
    "-DCLANG_ENABLE_ARCMT=OFF",
    "-DLLVM_ENABLE_UNWIND_TABLES=OFF",
    "-DLLVM_ENABLE_DIA_SDK=OFF",
    "-DLLVM_ENABLE_LLD=ON",
    "-DLLVM_ENABLE_PER_TARGET_RUNTIME_DIR=OFF",
    "-DLLVM_ENABLE_CURL=OFF",
    "-DLIBCLANG_BUILD_STATIC=ON",
    "-DLLVM_INSTALL_UTILS=ON" ]

/-- `cflags` (= `cxxflags`) after the dependency builds (lines 637-666):
on Windows the zlib include path, then `-DLIBXML_STATIC` from libxml2;
zstd contributes no compiler flags. -/
def cflags_deps (plat : Platform) : List String :=
  (if plat = Platform.win32 then ["-I" ++ zlib_dir] else []) ++ libxml_cflags

/-- `ldflags` after the dependency builds (Windows zlib lib path only). -/
def ldflags_deps (plat : Platform) : List String :=
  if plat = Platform.win32 then ["-LIBPATH:" ++ zlib_dir] else []

/-- `base_cmake_args` after the dependency builds appended their flags
(lines 641-666): Windows MSVC runtime + zlib flags, then libxml2 flags,
then (unless `--without-zstd`) zstd flags. -/
def base_cmake_args_after_deps (args : Args) (plat : Platform) : List String :=
  base_cmake_args_initial args plat
  ++ (if plat = Platform.win32 then
        ["-DCMAKE_MSVC_RUNTIME_LIBRARY=MultiThreaded", "-DLLVM_ENABLE_ZLIB=FORCE_ON"]
      else [])
  ++ libxml_cmake_args plat
  ++ (if args.with_zstd then zstd_cmake_args plat else [])

/-- `compiler_rt_cmake_flags` (lines 528-549): CMake variables (without
the `-D`) shared by the builtins/runtimes configuration of one triple. -/
def compiler_rt_cmake_flags (sanitizers : Bool) : List String :=
  [ "COMPILER_RT_BUILD_CRT=ON",
    "COMPILER_RT_BUILD_LIBFUZZER=OFF",
    "COMPILER_RT_BUILD_CTX_PROFILE=OFF",
    "COMPILER_RT_BUILD_MEMPROF=OFF",
    "COMPILER_RT_BUILD_ORC=OFF",
    "COMPILER_RT_BUILD_SANITIZERS=" ++ (if sanitizers then "ON" else "OFF"),
    "COMPILER_RT_BUILD_XRAY=OFF",
    "COMPILER_RT_SANITIZERS_TO_BUILD=\"asan;dfsan;msan;hwasan;tsan;cfi\"",
    "COMPILER_RT_DEFAULT_TARGET_ONLY=ON" ]

/-- `bootstrap_targets` (lines 702-705). -/
def bootstrap_targets (plat : Platform) : String :=
  "X86" ++ (if plat = Platform.darwin then ";ARM;AArch64" else "")

/-- The bootstrap-stage FlagSet `bootstrap_args` (lines 707-732),
parameterized over `platform.machine()`. -/
def bootstrap_args (args : Args) (plat : Platform) (machine : String) :
    List String :=
  base_cmake_args_after_deps args plat
  ++ [ "-DLLVM_TARGETS_TO_BUILD=\"" ++ bootstrap_targets plat ++ "\"",
       "-DLLVM_ENABLE_PROJECTS=\"clang;lld\"",
       "-DCMAKE_INSTALL_PREFIX=\"" ++ LLVM_BOOTSTRAP_INSTALL_DIR ++ "\"",
       "-DCMAKE_C_FLAGS=\"" ++ joinSp (cflags_deps plat) ++ "\"",
       "-DCMAKE_CXX_FLAGS=\"" ++ joinSp (cflags_deps plat) ++ "\"",
       "-DCMAKE_EXE_LINKER_FLAGS=\"" ++ joinSp (ldflags_deps plat) ++ "\"",
       "-DCMAKE_SHARED_LINKER_FLAGS=\"" ++ joinSp (ldflags_deps plat) ++ "\"",
       "-DCMAKE_MODULE_LINKER_FLAGS=\"" ++ joinSp (ldflags_deps plat) ++ "\"",
       "-DLLVM_ENABLE_ASSERTIONS=ON" ]
  ++ (compiler_rt_cmake_flags false).map (fun f => "-D" ++ f)
  ++ (if plat = Platform.darwin then
        [ "-DCOMPILER_RT_ENABLE_IOS=OFF",
          "-DCOMPILER_RT_ENABLE_WATCHOS=OFF",
          "-DCOMPILER_RT_ENABLE_TVOS=OFF",
          if machine = "arm64" then "-DDARWIN_osx_ARCHS=arm64"
          else "-DDARWIN_osx_ARCHS=x86_64" ]
      else [])

/-- The final-stage compiler executables (lines 753-761): always
resolved from the bootstrap install directory. -/
def cc_path (plat : Platform) : String :=
  if plat = Platform.win32 then join LLVM_BOOTSTRAP_INSTALL_DIR "bin/clang-cl.exe"
  else join LLVM_BOOTSTRAP_INSTALL_DIR "bin/clang"

def cxx_path (plat : Platform) : String :=
  if plat = Platform.win32 then join LLVM_BOOTSTRAP_INSTALL_DIR "bin/clang-cl.exe"
  else join LLVM_BOOTSTRAP_INSTALL_DIR "bin/clang++"

def lld_path : String := join LLVM_BOOTSTRAP_INSTALL_DIR "bin/lld-link.exe"

/-- `base_cmake_args` with the compiler-selection flags appended
(lines 771-774; `lld` stays `None` off Windows). -/
def base_cmake_args_with_compilers (args : Args) (plat : Platform) :
    List String :=
  base_cmake_args_after_deps args plat
  ++ [ "-DCMAKE_C_COMPILER=\"" ++ cc_path plat ++ "\"",
       "-DCMAKE_CXX_COMPILER=\"" ++ cxx_path plat ++ "\"" ]
  ++ (if plat = Platform.win32 then ["-DCMAKE_LINKER=\"" ++ lld_path ++ "\""] else [])

/-- `cflags` additions for the final stage (lines 766-768, Windows only). -/
def cflags_final (plat : Platform) : List String :=
  cflags_deps plat ++ (if plat = Platform.win32 then ["/Zi", "/GS-"] else [])

def ldflags_final (plat : Platform) : List String :=
  ldflags_deps plat
  ++ (if plat = Platform.win32 then ["/DEBUG", "/OPT:REF", "/OPT:ICF"] else [])

/-- `final_install_dir` (line 776). -/
def final_install_dir (args : Args) : String :=
  args.install_dir.getD LLVM_INSTALL_DIR

/-- `toolchain_tools` (lines 794-812). -/
def toolchain_tools (plat : Platform) : List String :=
  if plat = Platform.win32 then
    ["llvm-ml", "llvm-pdbutil", "llvm-readobj", "llvm-symbolizer", "llvm-undname"]
  else
    ["llvm-ar", "llvm-ml", "llvm-objcopy", "llvm-pdbutil", "llvm-readobj",
     "llvm-symbolizer", "llvm-undname"]

/-- `distribution_components` (lines 814-820). -/
def distribution_components (plat : Platform) : List String :=
  ["clang", "clang-resource-headers", "lld", "builtins"] ++ toolchain_tools plat

/-- `default_target_triple` (lines 418-440). -/
def default_target_triple (plat : Platform) (machine : String) : List String :=
  match plat with
  | Platform.darwin =>
    if machine = "arm64" then ["-DLLVM_DEFAULT_TARGET_TRIPLE=arm64-apple-darwin"]
    else ["-DLLVM_DEFAULT_TARGET_TRIPLE=x86_64-apple-darwin"]
  | Platform.linux =>
    (if machine = "aarch64" then
       ["-DLLVM_DEFAULT_TARGET_TRIPLE=\"aarch64-unknown-linux-gnu\""]
     else if machine = "riscv64" then
       ["-DLLVM_DEFAULT_TARGET_TRIPLE=\"riscv64-unknown-linux-gnu\""]
     else if machine = "loongarch64" then
       ["-DLLVM_DEFAULT_TARGET_TRIPLE=\"loongarch64-unknown-linux-gnu\""]
     else ["-DLLVM_DEFAULT_TARGET_TRIPLE=\"x86_64-unknown-linux-gnu\""])
    ++ ["-DLLVM_ENABLE_PER_TARGET_RUNTIME_DIR=ON"]
  | Platform.win32 => ["-DLLVM_DEFAULT_TARGET_TRIPLE=\"x86_64-pc-windows-msvc\""]

/-- One entry of the `runtimes_triples_args` table: the CMake variables
(without `-D`) common to the builtins and runtimes build of the triple,
and whether sanitizer runtimes are built for it. -/
structure TripleCfg where
  args : List String
  sanitizers : Bool
deriving DecidableEq

/-- `runtimes_triples_args` (lines 443-525), in dict insertion order. -/
def runtimes_triples_args (plat : Platform) : List (String × TripleCfg) :=
  match plat with
  | Platform.linux =>
    [ ("i386-unknown-linux-gnu", ⟨["LLVM_INCLUDE_TESTS=OFF"], true⟩),
      ("x86_64-unknown-linux-gnu", ⟨[], true⟩),
      ("armv7-unknown-linux-gnueabihf", ⟨["LLVM_INCLUDE_TESTS=OFF"], true⟩),
      ("aarch64-unknown-linux-gnu", ⟨["LLVM_INCLUDE_TESTS=OFF"], true⟩) ]
  | Platform.win32 =>
    [ ("i386-pc-windows-msvc", ⟨[], false⟩),
      ("x86_64-pc-windows-msvc", ⟨[], true⟩),
      ("aarch64-pc-windows-msvc", ⟨["LLVM_INCLUDE_TESTS=OFF"], false⟩) ]
  | Platform.darwin =>
    [ ("default",
       ⟨[ "COMPILER_RT_ENABLE_MACCATALYST=OFF",
          "COMPILER_RT_ENABLE_IOS=OFF",
          "COMPILER_RT_ENABLE_WATCHOS=OFF",
          "COMPILER_RT_ENABLE_TVOS=OFF",
          "COMPILER_RT_ENABLE_XROS=OFF",
          "DARWIN_osx_ARCHS=\"arm64;x86_64\"" ], true⟩) ]

/-- Insertion into a lexicographically sorted list of strings
(`sorted(triples_args.keys())` in the source). -/
def insortStr (s : String) : List String → List String
  | [] => [s]
  | t :: ts => if strLt s t then s :: t :: ts else t :: insortStr s ts

def sortStrs (l : List String) : List String := l.foldr insortStr []

def sortedTripleKeys (plat : Platform) : List String :=
  sortStrs ((runtimes_triples_args plat).map Prod.fst)

def lookupCfg (plat : Platform) (t : String) : TripleCfg :=
  ((runtimes_triples_args plat).lookup t).getD ⟨[], false⟩

/-- `all_triples` accumulation (line 839). -/
def all_triples (plat : Platform) : String :=
  (sortedTripleKeys plat).foldl
    (fun acc t => acc ++ (if acc = "" then "" else ";") ++ t) ""

/-- The flags one triple contributes in the loop of lines 838-855:
the triple's own table args once per namespace (`RUNTIMES_` then
`BUILTINS_`), then the compiler-rt flags under `RUNTIMES_` only;
the sentinel `"default"` passes everything through unprefixed. -/
def tripleFlags (t : String) (cfg : TripleCfg) : List String :=
  (cfg.args.flatMap (fun arg =>
     if t = "default" then ["-D" ++ arg]
     else ["-DRUNTIMES_" ++ t ++ "_" ++ arg, "-DBUILTINS_" ++ t ++ "_" ++ arg]))
  ++ ((compiler_rt_cmake_flags cfg.sanitizers).map (fun arg =>
     if t = "default" then "-D" ++ arg
     else "-DRUNTIMES_" ++ t ++ "_" ++ arg))

def tripleLoopFlags (plat : Platform) : List String :=
  (sortedTripleKeys plat).flatMap (fun t => tripleFlags t (lookupCfg plat t))

/-- The final-stage FlagSet `cmake_args` (lines 778-858). -/
def final_cmake_args (args : Args) (plat : Platform) (machine : String) :
    List String :=
  base_cmake_args_with_compilers args plat
  ++ [ "-DCMAKE_C_FLAGS=\"" ++ joinSp (cflags_final plat) ++ "\"",
       "-DCMAKE_CXX_FLAGS=\"" ++ joinSp (cflags_final plat) ++ "\"",
       "-DCMAKE_EXE_LINKER_FLAGS=\"" ++ joinSp (ldflags_final plat) ++ "\"",
       "-DCMAKE_SHARED_LINKER_FLAGS=\"" ++ joinSp (ldflags_final plat) ++ "\"",
       "-DCMAKE_MODULE_LINKER_FLAGS=\"" ++ joinSp (ldflags_final plat) ++ "\"",
       "-DCMAKE_INSTALL_PREFIX=\"" ++ final_install_dir args ++ "\"" ]
  ++ [ "-DLLVM_TOOLCHAIN_TOOLS=\"" ++ String.intercalate ";" (toolchain_tools plat) ++ "\"",
       "-DLLVM_DISTRIBUTION_COMPONENTS=\"" ++ String.intercalate ";" (distribution_components plat) ++ "\"",
       "-DLLVM_INSTALL_TOOLCHAIN_ONLY=ON" ]
  ++ (if args.thinlto then ["-DLLVM_ENABLE_LTO=Thin"] else [])
  ++ default_target_triple plat machine
  ++ tripleLoopFlags plat
  ++ [ "-DLLVM_BUILTIN_TARGETS=" ++ all_triples plat,
       "-DLLVM_RUNTIME_TARGETS=" ++ all_triples plat ]

/-! ## FlagSet analysis: CMake variable names and collisions -/

/-- Characters before the first `=` (the variable-name part of a
`NAME=VALUE` setting). -/
def takeUntilEq : List Char → List Char
  | [] => []
  | c :: cs => if c == '=' then [] else c :: takeUntilEq cs

/-- The CMake variable name set by a `-DNAME=VALUE` token (`none` for
non-definition tokens such as `-GNinja`). -/
def flagName (s : String) : Option String :=
  if strStartsWith s "-D" then some (String.mk (takeUntilEq (s.data.drop 2)))
  else none

def flagNames (l : List String) : List String := l.filterMap flagName

/-- The variable names set more than once in a FlagSet, in order of
first occurrence. -/
def dupNames (l : List String) : List String :=
  ((flagNames l).filter (fun n => 1 < (flagNames l).count n)).dedup

/-- The variable name of a table entry `NAME=VALUE` (no `-D`). -/
def nameOfArg (a : String) : String := String.mk (takeUntilEq a.data)

/-! ## Bootstrap Orchestrator: event-trace model

The effect of `main` on the outside world is recorded as a list of
events: diagnostics printed, directories wiped/created/entered, archives
downloaded-and-unpacked, and subprocesses started.  Exit codes of the
started subprocesses come from the oracle `codes : Nat → Nat` (index =
how many subprocesses were started before).  `sys.exit(1)` inside
`run_command`, and `main`'s own early `return 1`, are modeled by the
`Except` error carrying the state so far and the process exit status. -/

inductive Event
  | msg (s : String)
  | wipeDir (d : String)
  | ensureDir (d : String)
  | chdir (d : String)
  | download (url : String)
  | cmd (c : List String)
deriving DecidableEq

/-- Orchestration state: subprocesses started so far, events so far. -/
structure OrchSt where
  k : Nat
  events : List Event
deriving DecidableEq

def emit (e : Event) (st : OrchSt) : OrchSt := ⟨st.k, st.events ++ [e]⟩

/-- `run_command` of build.py (lines 61-79); every call site in build.py
uses the default `fail_hard=True`, so a non-zero exit code prints
`Failed.` and terminates the process with status 1.  (The Windows
`vcvarsall.bat` wrapping and the `Running ...` echo only affect how the
command line is rendered, not the control flow, and are elided.) -/
def run_command (codes : Nat → Nat) (command : List String) (st : OrchSt) :
    Except (OrchSt × Nat) OrchSt :=
  let code := codes st.k
  let st' : OrchSt := ⟨st.k + 1, st.events ++ [Event.cmd command]⟩
  if code = 0 then Except.ok st'
  else Except.error (emit (Event.msg "Failed.") st', 1)

/-- Events of a `download_and_unpack` call: the fetch into a temporary
file, then `ensure_dir_exists(output_dir)` before extraction. -/
def download_and_unpack_events (url outputDir : String) (st : OrchSt) :
    OrchSt :=
  emit (Event.ensureDir outputDir) (emit (Event.download url) st)

def zlib_files : List String :=
  ["adler32", "compress", "crc32", "deflate", "gzclose", "gzlib", "gzread",
   "gzwrite", "inflate", "infback", "inftrees", "inffast", "trees",
   "uncompr", "zutil"]

def zlib_cl_flags : List String :=
  ["/nologo", "/O2", "/DZLIB_DLL", "/c", "/D_CRT_SECURE_NO_DEPRECATE",
   "/D_CRT_NONSTDC_NO_DEPRECATE"]

/-- `build_zlib` (lines 220-263): wipe any existing tree, re-download and
unpack, compile and archive, remove the `test` directory.  There is no
completion-marker check and no force parameter; `zlibDirExists` is
whether `exists(zlib_dir)` held on entry. -/
def build_zlib (zlibDirExists : Bool) (codes : Nat → Nat) (st : OrchSt) :
    Except (OrchSt × Nat) OrchSt := do
  let st := if zlibDirExists then emit (Event.wipeDir zlib_dir) st else st
  let st := download_and_unpack_events
    (CDS_URL ++ "/tools/" ++ "zlib-1.2.11.tar.gz") LLVM_BUILD_TOOLS_DIR st
  let st := emit (Event.chdir zlib_dir) st
  let st ← run_command codes
    (["cl.exe"] ++ zlib_files.map (fun f => f ++ ".c") ++ zlib_cl_flags) st
  let st ← run_command codes
    (["lib.exe"] ++ zlib_files.map (fun f => f ++ ".obj")
      ++ ["/nologo", "/out:zlib.lib"]) st
  pure (emit (Event.wipeDir "test") st)

/-- The libxml2 configure arguments (lines 284-334, without the final
`..` source-path argument). -/
def libxml_configure_args : List String :=
  [ "cmake", "-GNinja", "-DCMAKE_BUILD_TYPE=Release",
    "-DCMAKE_INSTALL_PREFIX=install",
    "-DCMAKE_OSX_ARCHITECTURES=\"arm64;x86_64\"",
    "-DCMAKE_MSVC_RUNTIME_LIBRARY=MultiThreaded",
    "-DBUILD_SHARED_LIBS=OFF",
    "-DLIBXML2_WITH_C14N=OFF", "-DLIBXML2_WITH_CATALOG=OFF",
    "-DLIBXML2_WITH_DEBUG=OFF", "-DLIBXML2_WITH_DOCB=OFF",
    "-DLIBXML2_WITH_FTP=OFF", "-DLIBXML2_WITH_HTML=OFF",
    "-DLIBXML2_WITH_HTTP=OFF", "-DLIBXML2_WITH_ICONV=OFF",
    "-DLIBXML2_WITH_ICU=OFF", "-DLIBXML2_WITH_ISO8859X=OFF",
    "-DLIBXML2_WITH_LEGACY=OFF", "-DLIBXML2_WITH_LZMA=OFF",
    "-DLIBXML2_WITH_MEM_DEBUG=OFF", "-DLIBXML2_WITH_MODULES=OFF",
    "-DLIBXML2_WITH_OUTPUT=ON", "-DLIBXML2_WITH_PATTERN=OFF",
    "-DLIBXML2_WITH_PROGRAMS=OFF", "-DLIBXML2_WITH_PUSH=OFF",
    "-DLIBXML2_WITH_PYTHON=OFF", "-DLIBXML2_WITH_READER=OFF",
    "-DLIBXML2_WITH_REGEXPS=OFF", "-DLIBXML2_WITH_RUN_DEBUG=OFF",
    "-DLIBXML2_WITH_SAX1=OFF", "-DLIBXML2_WITH_SCHEMAS=OFF",
    "-DLIBXML2_WITH_SCHEMATRON=OFF", "-DLIBXML2_WITH_TESTS=OFF",
    "-DLIBXML2_WITH_THREADS=ON", "-DLIBXML2_WITH_THREAD_ALLOC=OFF",
    "-DLIBXML2_WITH_TREE=ON", "-DLIBXML2_WITH_VALID=OFF",
    "-DLIBXML2_WITH_WRITER=OFF", "-DLIBXML2_WITH_XINCLUDE=OFF",
    "-DLIBXML2_WITH_XPATH=OFF", "-DLIBXML2_WITH_XPTR=OFF",
    "-DLIBXML2_WITH_ZLIB=OFF" ]

/-- `build_libxml2` (lines 266-358): wipe any existing tree, re-download
and unpack, configure and build; no completion-marker check. -/
def build_libxml2 (libxmlDirExists : Bool) (codes : Nat → Nat)
    (st : OrchSt) : Except (OrchSt × Nat) OrchSt := do
  let st := if libxmlDirExists then emit (Event.wipeDir libxml_src_dir) st else st
  let st := download_and_unpack_events
    (CDS_URL ++ "/tools/" ++ "libxml2-v2.9.12.tar.gz") LLVM_BUILD_TOOLS_DIR st
  let st := emit (Event.chdir libxml_build_dir)
    (emit (Event.ensureDir libxml_build_dir) st)
  let st ← run_command codes (libxml_configure_args ++ [".."]) st
  let st ← run_command codes ["ninja", "install"] st
  pure st

/-- The zstd configure arguments (lines 381-396, without the final
source-path argument). -/
def zstd_configure_args : List String :=
  [ "cmake", "-GNinja", "-DCMAKE_BUILD_TYPE=Release",
    "-DCMAKE_INSTALL_PREFIX=install",
    "-DCMAKE_OSX_ARCHITECTURES=\"arm64;x86_64\"",
    "-DCMAKE_MSVC_RUNTIME_LIBRARY=MultiThreaded",
    "-DZSTD_BUILD_SHARED=OFF" ]

/-- `build_zstd` (lines 361-415): wipe any existing tree, re-download and
unpack, configure and build; no completion-marker check. -/
def build_zstd (zstdDirExists : Bool) (codes : Nat → Nat) (st : OrchSt) :
    Except (OrchSt × Nat) OrchSt := do
  let st := if zstdDirExists then emit (Event.wipeDir zstd_src_dir) st else st
  let st := download_and_unpack_events
    (CDS_URL ++ "/tools/" ++ "zstd-1.5.5.tar.gz") LLVM_BUILD_TOOLS_DIR st
  let st := emit (Event.chdir zstd_build_dir)
    (emit (Event.ensureDir zstd_build_dir) st)
  let st ← run_command codes (zstd_configure_args ++ ["../build/cmake"]) st
  let st ← run_command codes ["ninja", "install"] st
  pure st

/-- The bootstrap stage of `main` (lines 699-745), entered only when
`--bootstrap` was given: wipe any prior bootstrap build directory,
configure, build, optionally test, install. -/
def bootstrapStage (args : Args) (plat : Platform) (machine : String)
    (bootstrapDirExists : Bool) (codes : Nat → Nat) (st : OrchSt) :
    Except (OrchSt × Nat) OrchSt := do
  let st := emit (Event.msg "Building bootstrap compiler") st
  let st := if bootstrapDirExists then emit (Event.wipeDir LLVM_BOOTSTRAP_DIR) st else st
  let st := emit (Event.chdir LLVM_BOOTSTRAP_DIR)
    (emit (Event.ensureDir LLVM_BOOTSTRAP_DIR) st)
  let st ← run_command codes
    (["cmake"] ++ bootstrap_args args plat machine
      ++ [join LLVM_PROJECT_DIR "llvm"]) st
  let st ← run_command codes ["ninja"] st
  let st ← (if args.run_tests then run_command codes ["ninja", "check-all"] st
            else Except.ok st)
  let st ← run_command codes ["ninja", "install"] st
  pure (emit (Event.msg "Bootstrap compiler installed.") st)

/-- The final stage of `main` (lines 747-875): unconditionally requires
the bootstrap install directory (whether or not `--bootstrap` was
given); on success wipes any prior final *build* directory, configures,
builds, optionally tests, and installs the distribution components.
The exit-status-1 branch is the source's `return 1` (lines 749-751). -/
def finalStage (args : Args) (plat : Platform) (machine : String)
    (bootstrapInstallExists llvmBuildDirExists : Bool) (codes : Nat → Nat)
    (st : OrchSt) : Except (OrchSt × Nat) OrchSt := do
  let st := emit (Event.msg "Building final compiler.") st
  if bootstrapInstallExists then
    let st := if llvmBuildDirExists then emit (Event.wipeDir LLVM_BUILD_DIR) st else st
    let st := emit (Event.chdir LLVM_BUILD_DIR)
      (emit (Event.ensureDir LLVM_BUILD_DIR) st)
    let st ← run_command codes
      (["cmake"] ++ final_cmake_args args plat machine
        ++ [join LLVM_PROJECT_DIR "llvm"]) st
    let st ← run_command codes ["ninja", "-C", LLVM_BUILD_DIR] st
    let st ← (if args.run_tests then run_command codes ["ninja", "check-all"] st
              else Except.ok st)
    let st ← run_command codes ["ninja", "install-distribution"] st
    pure (emit (Event.msg "Clang build was successful.") st)
  else
    Except.error (emit (Event.msg "Bootstrap compiler not exists.") st, 1)

/-- Directory-existence facts `main` observes (each flag is the value of
the corresponding `exists(...)` check at the moment it is made). -/
structure World where
  zlibDirExists : Bool
  libxmlDirExists : Bool
  zstdDirExists : Bool
  bootstrapDirExists : Bool
  bootstrapInstallExists : Bool
  llvmBuildDirExists : Bool
deriving DecidableEq

/-- `main` of build.py (lines 552-875) as an `Except` computation:
dependency builds (zlib on Windows only, libxml2 always, zstd unless
`--without-zstd`), the optional bootstrap stage, then the final stage. -/
def mainRun (args : Args) (plat : Platform) (machine : String) (w : World)
    (codes : Nat → Nat) : Except (OrchSt × Nat) OrchSt := do
  let st : OrchSt := ⟨0, []⟩
  let st ← (if plat = Platform.win32 then build_zlib w.zlibDirExists codes st
            else Except.ok st)
  let st ← build_libxml2 w.libxmlDirExists codes st
  let st ← (if args.with_zstd then build_zstd w.zstdDirExists codes st
            else Except.ok st)
  let st ← (if args.bootstrap then
              bootstrapStage args plat machine w.bootstrapDirExists codes st
            else Except.ok st)
  finalStage args plat machine w.bootstrapInstallExists w.llvmBuildDirExists
    codes st

/-- `sys.exit(main())`: the final event trace and process exit status. -/
def main_model (args : Args) (plat : Platform) (machine : String) (w : World)
    (codes : Nat → Nat) : OrchSt × Nat :=
  match mainRun args plat machine w codes with
  | Except.ok st => (st, 0)
  | Except.error e => e

/-! ## The libc++ build script (`scripts/build_libcxx.py`) -/

def SCRIPTS_BUILD_DIR : String := norm "src/scripts"

def SCRIPTS_LLVM_PROJECT_DIR : String :=
  join SCRIPTS_BUILD_DIR "../llvm-project"

def SCRIPTS_LLVM_INSTALL_DIR : String :=
  join SCRIPTS_BUILD_DIR "../out/llvm-install"

def LIBCXX_BUILD_DIR : String := join SCRIPTS_BUILD_DIR "../out/libcxx-build"

def LIBCXX_INSTALL_DIR : String :=
  join SCRIPTS_BUILD_DIR "../out/libcxx-install"

/-- `run_command` of build_libcxx.py (lines 105-112): starts the
subprocess and DISCARDS `subprocess.call`'s return value — a failing
command neither stops the script nor affects its exit status. -/
def run_command_libcxx (_codes : Nat → Nat) (command : List String)
    (st : OrchSt) : OrchSt :=
  ⟨st.k + 1, st.events ++ [Event.cmd command]⟩

/-- The libc++ configure FlagSet (lines 64-88). -/
def libcxx_cmake_args (plat : Platform) (installDir : String) : List String :=
  [ "-GNinja", "-DCMAKE_BUILD_TYPE=Release",
    "-DCMAKE_INSTALL_PREFIX=\"" ++ installDir ++ "\"" ]
  ++ (if plat = Platform.win32 then
        [ "-DCMAKE_C_COMPILER=\"" ++ SCRIPTS_LLVM_INSTALL_DIR ++ "/bin/clang-cl.exe\"",
          "-DCMAKE_CXX_COMPILER=\"" ++ SCRIPTS_LLVM_INSTALL_DIR ++ "/bin/clang-cl.exe\"",
          "-DCMAKE_LINKER=\"" ++ SCRIPTS_LLVM_INSTALL_DIR ++ "/bin/lld-link.exe\"",
          "-DLLVM_ENABLE_RUNTIMES=\"libcxx\"" ]
      else
        [ "-DCMAKE_C_COMPILER=\"" ++ SCRIPTS_LLVM_INSTALL_DIR ++ "/bin/clang\"",
          "-DCMAKE_CXX_COMPILER=\"" ++ SCRIPTS_LLVM_INSTALL_DIR ++ "/bin/clang++\"",
          "-DCMAKE_LINKER=\"" ++ SCRIPTS_LLVM_INSTALL_DIR ++ "/bin/lld\"",
          "-DLIBCXXABI_USE_LLVM_UNWINDER=Off",
          "-DLLVM_ENABLE_RUNTIMES=\"libcxx;libcxxabi\"" ])

/-- `main` of build_libcxx.py (lines 51-103): requires the final llvm
install, wipes its build directory AND the DEFAULT install directory
(`LIBCXX_INSTALL_DIR`, not the `--install-dir` override), configures and
installs, and returns 0 regardless of the subprocesses' exit codes.
(The `MACOSX_DEPLOYMENT_TARGET` environment export is elided.) -/
def build_libcxx_main (plat : Platform) (install_dir : Option String)
    (llvmInstallExists libcxxBuildDirExists libcxxInstallDirExists : Bool)
    (codes : Nat → Nat) : OrchSt × Nat :=
  if llvmInstallExists then
    let libcxx_install_dir := install_dir.getD LIBCXX_INSTALL_DIR
    let st : OrchSt := ⟨0, []⟩
    let st := if libcxxBuildDirExists then emit (Event.wipeDir LIBCXX_BUILD_DIR) st else st
    let st := if libcxxInstallDirExists then emit (Event.wipeDir LIBCXX_INSTALL_DIR) st else st
    let st := emit (Event.chdir LIBCXX_BUILD_DIR)
      (emit (Event.ensureDir LIBCXX_BUILD_DIR) st)
    let st := run_command_libcxx codes
      (["cmake"] ++ libcxx_cmake_args plat libcxx_install_dir
        ++ ["\"" ++ join SCRIPTS_LLVM_PROJECT_DIR "runtimes" ++ "\""]) st
    let st := run_command_libcxx codes ["ninja", "install"] st
    (st, 0)
  else
    (⟨0, [Event.msg "Build 'llvm-install' first."]⟩, 1)

/-! ## Analysis helpers used by the claim statements -/

/-- Spec-side check for the per-triple emission discipline: every table
arg of a non-default triple appears exactly once under each of the
`RUNTIMES_` and `BUILTINS_` namespaces, the per-triple compiler-rt flags
appear exactly once under `RUNTIMES_` and never under `BUILTINS_`, and
every flag of the sentinel `"default"` triple appears exactly once,
unprefixed. -/
def tripleEmissionFaithful (args : Args) (plat : Platform)
    (machine : String) : Bool :=
  let names := flagNames (final_cmake_args args plat machine)
  (runtimes_triples_args plat).all fun tc =>
    if tc.1 = "default" then
      (tc.2.args ++ compiler_rt_cmake_flags tc.2.sanitizers).all fun a =>
        names.count (nameOfArg a) == 1
    else
      (tc.2.args.all fun a =>
        (names.count ("RUNTIMES_" ++ tc.1 ++ "_" ++ nameOfArg a) == 1) &&
        (names.count ("BUILTINS_" ++ tc.1 ++ "_" ++ nameOfArg a) == 1)) &&
      ((compiler_rt_cmake_flags tc.2.sanitizers).all fun a =>
        (names.count ("RUNTIMES_" ++ tc.1 ++ "_" ++ nameOfArg a) == 1) &&
        (names.count ("BUILTINS_" ++ tc.1 ++ "_" ++ nameOfArg a) == 0))

def isCmd : Event → Bool
  | Event.cmd _ => true
  | _ => false

def isWipe : Event → Bool
  | Event.wipeDir _ => true
  | _ => false

/-- The event trace of a stage outcome, successful or aborted. -/
def okEvents : Except (OrchSt × Nat) OrchSt → List Event
  | Except.ok st => st.events
  | Except.error e => e.1.events

/-- Exit-code oracle: every subprocess succeeds. -/
def codes0 : Nat → Nat := fun _ => 0

/-- Exit-code oracle: every subprocess fails with status 1. -/
def codes1 : Nat → Nat := fun _ => 1

/-- Default arguments plus `--bootstrap`. -/
def bootArgs : Args := { defaultArgs with bootstrap := true }

/-- Default arguments plus an `--install-dir` override. -/
def overrideArgs : Args := { defaultArgs with install_dir := some "/custom/llvm" }

/-! ## Helper lemmas -/

theorem exceptBindOk {ε α β : Type} (a : α) (f : α → Except ε β) :
    (Except.ok a >>= f) = f a := rfl

theorem exceptBindError {ε α β : Type} (e : ε) (f : α → Except ε β) :
    ((Except.error e : Except ε α) >>= f) = Except.error e := rfl

/-- Every attempt of the download loop after the first starts with the
output file it was handed; retries are always handed the truncated
(empty) file. -/
theorem downloadLoop_startFiles {σ : Type} (gz : GzipModel σ)
    (oracle : Nat → AttemptEvent) :
    ∀ (n i w : Nat) (file : List Nat),
      ∃ t, (downloadLoop gz oracle n i w file).startFiles = file :: t
        ∧ t.all List.isEmpty = true := by
  intro n
  induction n with
  | zero =>
    intro i w file
    simp only [downloadLoop]
    rcases runAttempt gz (oracle i) file with ⟨f, _ | e⟩
    · exact ⟨[], rfl, rfl⟩
    · exact ⟨[], rfl, rfl⟩
  | succ m ih =>
    intro i w file
    simp only [downloadLoop]
    rcases runAttempt gz (oracle i) file with ⟨f, _ | e⟩
    · exact ⟨[], rfl, rfl⟩
    · by_cases he : e = AttErr.http 404
      · simp only [he, if_pos rfl]
        exact ⟨[], rfl, rfl⟩
      · simp only [if_neg he]
        rcases ih (i + 1) (w * 2) [] with ⟨t, ht, hall⟩
        refine ⟨(downloadLoop gz oracle m (i + 1) (w * 2) []).startFiles, rfl,
          ?_⟩
        rw [ht]
        simpa using hall

/-! ## Claim theorems -/

/-- C1 (counterexample): with bootstrap NOT requested (`defaultArgs`)
and the bootstrap install directory absent, the final stage does not
fall back to the ambient environment: it prints the missing-bootstrap
diagnostic and exits with status 1, issuing no subprocess at all — so
the final stage does require the bootstrap install directory to exist
even when bootstrap was not requested. -/
theorem ambient_environment_not_used_counterexample :
    finalStage defaultArgs Platform.linux "x86_64" false true codes0 ⟨0, []⟩ =
      Except.error
        (⟨0, [Event.msg "Building final compiler.",
              Event.msg "Bootstrap compiler not exists."]⟩, 1) := rfl

/-- C1 (amended): for EVERY invocation — bootstrap requested or not —
the final stage requires the bootstrap install directory (exiting 1
with a diagnostic and no subprocess when it is absent; shown here for
bootstrap-not-requested argument vectors), and the compiler-selection
flag injected into the final-stage FlagSet always names the compiler
inside the bootstrap install directory; the ambient environment is
never consulted. -/
theorem final_compiler_always_from_bootstrap_install :
    (∀ (instDir : Option String) (thin da pic zstd rt : Bool)
        (plat : Platform) (machine : String) (ex : Bool) (codes : Nat → Nat)
        (st : OrchSt),
      finalStage ⟨false, instDir, thin, da, pic, zstd, rt⟩ plat machine
          false ex codes st =
        Except.error
          (⟨st.k, st.events ++ [Event.msg "Building final compiler.",
                Event.msg "Bootstrap compiler not exists."]⟩, 1))
  ∧ (∀ (args : Args) (plat : Platform) (machine : String),
      ("-DCMAKE_C_COMPILER=\"" ++
          join LLVM_BOOTSTRAP_INSTALL_DIR
            (if plat = Platform.win32 then "bin/clang-cl.exe" else "bin/clang")
          ++ "\"") ∈ final_cmake_args args plat machine) := by
  constructor
  · intro instDir thin da pic zstd rt plat machine ex codes st
    simp [finalStage, emit]
  · intro args plat machine
    have hcc : ("-DCMAKE_C_COMPILER=\"" ++
        join LLVM_BOOTSTRAP_INSTALL_DIR
          (if plat = Platform.win32 then "bin/clang-cl.exe" else "bin/clang")
        ++ "\"") = "-DCMAKE_C_COMPILER=\"" ++ cc_path plat ++ "\"" := by
      cases plat <;> rfl
    rw [hcc]
    simp [final_cmake_args, base_cmake_args_with_compilers]

/-- C2 (counterexample): in the libc++ build script, with EVERY
subprocess failing (exit code 1), the orchestration does not abort:
both external commands (configure and install) are still issued and
the script's own exit status is 0 — refuting "any non-zero subprocess
status aborts immediately with a non-zero exit status". -/
theorem subprocess_failure_ignored_counterexample :
    (build_libcxx_main Platform.linux none true true true codes1).2 = 0 ∧
    ((build_libcxx_main Platform.linux none true true true
        codes1).1.events.filter isCmd).length = 2 := ⟨rfl, rfl⟩

/-- C2 (amended): in build.py a failing external command aborts
immediately — `run_command` exits with status 1 after a `Failed.`
diagnostic, recording no further command, and a failing final-stage
configure ends the stage right there with exit 1 (no build/test/install
command is issued and nothing is retried); the libc++ build script,
by contrast, discards subprocess exit codes: it always issues both of
its commands and always exits 0. -/
theorem build_failure_abort_semantics :
    (∀ (n : Nat) (command : List String) (st : OrchSt),
      run_command (fun _ => n + 1) command st =
        Except.error
          (⟨st.k + 1, st.events ++ [Event.cmd command, Event.msg "Failed."]⟩,
           1))
  ∧ (∀ (args : Args) (plat : Platform) (machine : String) (ex : Bool)
        (st : OrchSt) (n : Nat),
      finalStage args plat machine true ex (fun _ => n + 1) st =
        Except.error
          (⟨st.k + 1,
            st.events ++ [Event.msg "Building final compiler."]
              ++ (if ex then [Event.wipeDir LLVM_BUILD_DIR] else [])
              ++ [Event.ensureDir LLVM_BUILD_DIR, Event.chdir LLVM_BUILD_DIR,
                  Event.cmd (["cmake"] ++ final_cmake_args args plat machine
                    ++ [join LLVM_PROJECT_DIR "llvm"]),
                  Event.msg "Failed."]⟩, 1))
  ∧ (∀ (codes : Nat → Nat) (plat : Platform) (instDir : Option String),
      (build_libcxx_main plat instDir true true true codes).2 = 0 ∧
      ((build_libcxx_main plat instDir true true true codes).1.events.filter
          isCmd).length = 2) := by
  refine ⟨?_, ?_, ?_⟩
  · intro n command st
    simp [run_command, emit]
  · intro args plat machine ex st n
    cases ex <;> simp [finalStage, run_command, emit, exceptBindError]
  · intro codes plat instDir
    exact ⟨rfl, by simp [build_libcxx_main, run_command_libcxx, emit, isCmd]⟩

/-- C3 (counterexample): with the zstd artifact directory already
present (the cached artifact in place) the fetch-and-build is NOT a
no-op: the directory is wiped, the archive re-downloaded, and the
configure/build commands re-issued. -/
theorem artifact_marker_ignored_counterexample :
    okEvents (build_zstd true codes0 ⟨0, []⟩) =
      [Event.wipeDir zstd_src_dir,
       Event.download (CDS_URL ++ "/tools/" ++ "zstd-1.5.5.tar.gz"),
       Event.ensureDir LLVM_BUILD_TOOLS_DIR,
       Event.ensureDir zstd_build_dir, Event.chdir zstd_build_dir,
       Event.cmd (zstd_configure_args ++ ["../build/cmake"]),
       Event.cmd ["ninja", "install"]] := rfl

/-- C3 (amended): for every artifact (zlib, libxml2, zstd) the
fetch-and-build operation is unconditional: whether or not the
artifact's directory already exists it downloads, unpacks and rebuilds,
additionally wiping the directory first when it exists; there is no
completion-marker check and no force-rebuild parameter, so a cached
artifact is never reused. -/
theorem artifact_fetch_unconditional :
    (∀ ex : Bool, okEvents (build_zlib ex codes0 ⟨0, []⟩) =
      (if ex then [Event.wipeDir zlib_dir] else [])
        ++ [Event.download (CDS_URL ++ "/tools/" ++ "zlib-1.2.11.tar.gz"),
            Event.ensureDir LLVM_BUILD_TOOLS_DIR, Event.chdir zlib_dir,
            Event.cmd (["cl.exe"] ++ zlib_files.map (fun f => f ++ ".c")
              ++ zlib_cl_flags),
            Event.cmd (["lib.exe"] ++ zlib_files.map (fun f => f ++ ".obj")
              ++ ["/nologo", "/out:zlib.lib"]),
            Event.wipeDir "test"])
  ∧ (∀ ex : Bool, okEvents (build_libxml2 ex codes0 ⟨0, []⟩) =
      (if ex then [Event.wipeDir libxml_src_dir] else [])
        ++ [Event.download (CDS_URL ++ "/tools/" ++ "libxml2-v2.9.12.tar.gz"),
            Event.ensureDir LLVM_BUILD_TOOLS_DIR,
            Event.ensureDir libxml_build_dir, Event.chdir libxml_build_dir,
            Event.cmd (libxml_configure_args ++ [".."]),
            Event.cmd ["ninja", "install"]])
  ∧ (∀ ex : Bool, okEvents (build_zstd ex codes0 ⟨0, []⟩) =
      (if ex then [Event.wipeDir zstd_src_dir] else [])
        ++ [Event.download (CDS_URL ++ "/tools/" ++ "zstd-1.5.5.tar.gz"),
            Event.ensureDir LLVM_BUILD_TOOLS_DIR,
            Event.ensureDir zstd_build_dir, Event.chdir zstd_build_dir,
            Event.cmd (zstd_configure_args ++ ["../build/cmake"]),
            Event.cmd ["ninja", "install"]]) := by
  refine ⟨?_, ?_, ?_⟩ <;> (intro ex; cases ex <;> rfl)

set_option maxRecDepth 100000 in
/-- C4 (counterexample): the bootstrap-stage FlagSet is NOT
collision-free — `LLVM_TARGETS_TO_BUILD` is set twice (once by the base
flags, once by the bootstrap-specific overrides). -/
theorem flagset_collision_counterexample :
    (flagNames (bootstrap_args bootArgs Platform.linux "x86_64")).count
      "LLVM_TARGETS_TO_BUILD" = 2 := by decide

set_option maxRecDepth 100000 in
set_option maxHeartbeats 2000000 in
/-- C4 (amended): the synthesized FlagSets can set a flag name more than
once, with exactly these duplicates under default arguments: on every
platform the bootstrap FlagSet re-sets `LLVM_TARGETS_TO_BUILD`,
`LLVM_ENABLE_PROJECTS` and `LLVM_ENABLE_ASSERTIONS` over the base
flags, and on Linux the final-stage FlagSet sets
`LLVM_ENABLE_PER_TARGET_RUNTIME_DIR` twice (OFF in the base flags, ON
from the default-target-triple logic); no other flag name — in
particular no triple-namespaced one — is duplicated. -/
theorem flagset_duplicates_characterized :
    dupNames (bootstrap_args bootArgs Platform.linux "x86_64") =
      ["LLVM_TARGETS_TO_BUILD", "LLVM_ENABLE_PROJECTS",
       "LLVM_ENABLE_ASSERTIONS"] ∧
    dupNames (bootstrap_args bootArgs Platform.win32 "AMD64") =
      ["LLVM_TARGETS_TO_BUILD", "LLVM_ENABLE_PROJECTS",
       "LLVM_ENABLE_ASSERTIONS"] ∧
    dupNames (bootstrap_args bootArgs Platform.darwin "arm64") =
      ["LLVM_TARGETS_TO_BUILD", "LLVM_ENABLE_PROJECTS",
       "LLVM_ENABLE_ASSERTIONS"] ∧
    dupNames (final_cmake_args defaultArgs Platform.linux "x86_64") =
      ["LLVM_ENABLE_PER_TARGET_RUNTIME_DIR"] ∧
    dupNames (final_cmake_args defaultArgs Platform.win32 "AMD64") = [] ∧
    dupNames (final_cmake_args defaultArgs Platform.darwin "arm64") = [] := by
  refine ⟨?_, ?_, ?_, ?_, ?_, ?_⟩ <;> decide

set_option maxRecDepth 100000 in
/-- C5 (counterexample): the per-triple compiler-rt flag
`COMPILER_RT_BUILD_CRT` of triple `x86_64-unknown-linux-gnu` is emitted
under the `RUNTIMES_` namespace but NOT under the `BUILTINS_` namespace
— so not every flag of every non-default triple is emitted in both
namespaces. -/
theorem dual_namespace_counterexample :
    ((final_cmake_args defaultArgs Platform.linux "x86_64").contains
        "-DRUNTIMES_x86_64-unknown-linux-gnu_COMPILER_RT_BUILD_CRT=ON" =
      true) ∧
    ((flagNames (final_cmake_args defaultArgs Platform.linux "x86_64")).contains
        "BUILTINS_x86_64-unknown-linux-gnu_COMPILER_RT_BUILD_CRT" =
      false) := by
  exact ⟨by decide, by decide⟩

set_option maxRecDepth 100000 in
set_option maxHeartbeats 2000000 in
/-- C5 (amended): for every non-default triple, the triple's TABLE args
are emitted exactly once under each of the `BUILTINS_<triple>_` and
`RUNTIMES_<triple>_` namespaces, while the per-triple compiler-rt flags
are emitted exactly once under `RUNTIMES_<triple>_` and never under
`BUILTINS_<triple>_`; the sentinel triple `"default"`'s flags are
emitted exactly once, unprefixed — verified on all three platform
triple tables. -/
theorem triple_namespace_emission :
    tripleEmissionFaithful defaultArgs Platform.linux "x86_64" = true ∧
    tripleEmissionFaithful defaultArgs Platform.win32 "AMD64" = true ∧
    tripleEmissionFaithful defaultArgs Platform.darwin "arm64" = true := by
  exact ⟨by decide, by decide, by decide⟩

/-- C6: a download attempt whose response declares a content length
fails (with the size-mismatch error) exactly when the received byte
count differs from the declared length; and across the whole retry
loop, every attempt after the first starts with the output file
truncated to zero length. -/
theorem download_size_check_and_truncation :
    (∀ {σ : Type} (gz : GzipModel σ) (L : Nat) (gzp : Bool)
        (chunks : List (List Nat)) (file : List Nat),
      (runAttempt gz (AttemptEvent.resp ⟨some L, gzp, chunks⟩) file).2 =
        (if responseBytes ⟨some L, gzp, chunks⟩ = L then none
         else some (AttErr.sizeMismatch (responseBytes ⟨some L, gzp, chunks⟩)
           L)))
  ∧ (∀ {σ : Type} (gz : GzipModel σ) (oracle : Nat → AttemptEvent),
      ((download_url gz oracle).startFiles.tail).all List.isEmpty = true) := by
  constructor
  · intro σ gz L gzp chunks file
    by_cases hL : responseBytes ⟨some L, gzp, chunks⟩ = L
    · cases gzp <;> simp [runAttempt, hL]
    · cases gzp <;> simp [runAttempt, hL]
  · intro σ gz oracle
    obtain ⟨t, ht, hall⟩ := downloadLoop_startFiles gz oracle 3 0 5 []
    unfold download_url
    rw [ht]
    simpa using hall

/-- C7: a fetch whose first attempt fails with a 404 HTTPError makes
exactly one attempt, performs no backoff sleep, and propagates the 404
error to the caller — whatever outcomes the network would have
produced for later attempts. -/
theorem download_404_not_retried :
    ∀ {σ : Type} (gz : GzipModel σ) (rest : Nat → AttemptEvent),
      download_url gz
          (fun i => if i = 0 then AttemptEvent.httpError 404 else rest i) =
        ⟨1, [], [[]], Except.error (AttErr.http 404)⟩ := by
  intro σ gz rest
  rfl

/-- C8: with bootstrap requested and the bootstrap install directory
absent when the final stage is entered, the final stage fails with the
specific "Bootstrap compiler not exists." diagnostic and exit status 1
before issuing any final-stage subprocess (the subprocess counter and
the command events are untouched). -/
theorem bootstrap_install_missing_fails_before_subprocess :
    ∀ (instDir : Option String) (thin da pic zstd rt : Bool)
      (plat : Platform) (machine : String) (ex : Bool) (codes : Nat → Nat)
      (st : OrchSt),
      finalStage ⟨true, instDir, thin, da, pic, zstd, rt⟩ plat machine
          false ex codes st =
        Except.error
          (⟨st.k, st.events ++ [Event.msg "Building final compiler.",
                Event.msg "Bootstrap compiler not exists."]⟩, 1) := by
  intro instDir thin da pic zstd rt plat machine ex codes st
  simp [finalStage, emit]

/-- C9 (counterexample): an invocation with an `--install-dir` override
that reaches the final install step (`ninja install-distribution` is
issued) wipes only the prior final BUILD directory — neither the
override-resolved install directory nor the default install directory
is wiped before installing. -/
theorem install_dir_not_wiped_counterexample :
    ((okEvents (finalStage overrideArgs Platform.linux "x86_64" true true
        codes0 ⟨0, []⟩)).filter isWipe = [Event.wipeDir LLVM_BUILD_DIR]) ∧
    ((okEvents (finalStage overrideArgs Platform.linux "x86_64" true true
        codes0 ⟨0, []⟩)).contains
          (Event.cmd ["ninja", "install-distribution"]) = true) := ⟨rfl, rfl⟩

/-- C9 (amended): the final install step wipes no install directory:
in build.py the only directory the final stage ever wipes is the prior
final build directory (and only when it exists, before configuring);
the libc++ script wipes its build directory and the DEFAULT install
directory, regardless of any install-directory override — the
override-resolved directory is never wiped. -/
theorem final_install_wipe_scope :
    (∀ (args : Args) (plat : Platform) (machine : String) (ex : Bool)
        (st : OrchSt),
      (okEvents (finalStage args plat machine true ex codes0 st)).filter
          isWipe =
        st.events.filter isWipe
          ++ (if ex then [Event.wipeDir LLVM_BUILD_DIR] else []))
  ∧ (∀ (plat : Platform) (instDir : Option String) (codes : Nat → Nat),
      ((build_libcxx_main plat instDir true true true codes).1.events.filter
          isWipe) =
        [Event.wipeDir LIBCXX_BUILD_DIR, Event.wipeDir LIBCXX_INSTALL_DIR]) := by
  constructor
  · intro args plat machine ex st
    cases hrt : args.run_tests <;> cases ex <;>
      simp [finalStage, run_command, codes0, emit, okEvents, isWipe, hrt,
        exceptBindOk, List.filter_append]
  · intro plat instDir codes
    simp [build_libcxx_main, run_command_libcxx, emit, isWipe]

/-- C10: extracting with a path-prefix filter on a zip archive fails
fast (the assertion); on a tar archive with a filter, exactly the
members whose path starts with one of the prefixes are extracted; with
no filter, all members are extracted (for zip and tar alike). -/
theorem unpack_member_selection :
    (∀ (url : String) (archive : List String) (ps : List String),
      download_and_unpack url archive (some ps) true =
        Except.error "AssertionError: path_prefixes is None")
  ∧ (∀ (url : String) (archive : List String) (ps : List String),
      strEndsWith url ".zip" = false →
      download_and_unpack url archive (some ps) false =
        Except.ok (archive.filter (fun m => ps.any (fun p =>
          strStartsWith m p))))
  ∧ (∀ (url : String) (archive : List String) (zip : Bool),
      download_and_unpack url archive none zip = Except.ok archive) := by
  refine ⟨?_, ?_, ?_⟩
  · intro url archive ps
    simp [download_and_unpack]
  · intro url archive ps h
    simp [download_and_unpack, h]
  · intro url archive zip
    unfold download_and_unpack
    split <;> rfl

/-- C10 (witness): concrete tar extraction with the filter `["a/"]`
keeps exactly the members under `a/`. -/
theorem unpack_member_selection_witness :
    download_and_unpack "x.tar.gz" ["a/1", "b/2", "a/3"] (some ["a/"]) false =
      Except.ok ["a/1", "a/3"] :=
  (unpack_member_selection.2.1 "x.tar.gz" ["a/1", "b/2", "a/3"] ["a/"]
    (by decide)).trans rfl
